import Mathlib

/-!
# Verification of the nanobanana Streamlit image-generation app

Shallow embedding of the pure logic of `app.py` and
`streamlit_auth_history_utils.py`:

* Python `str.strip` / `str.rstrip` over ASCII whitespace;
* the standard `base64.b64encode` / `base64.b64decode` pair over byte lists
  (bytes are `Nat` values with explicit `< 256` bounds; base64 text is the
  list of its character codes);
* history serialization / deserialization (`_serialize_history`,
  `_deserialize_history`) and on-disk load (`load_history_from_storage`);
* response parsing (`extract_parts`, `collect_image_bytes`,
  `collect_text_parts`) over a typed model of the attribute-style /
  mapping-style response shapes;
* prompt composition in `main`;
* the secret/config resolver (`get_secret_value`, `DEFAULT_GEMINI_API_KEY`,
  `get_current_api_key`);
* the auth gate (`get_secret_auth_credentials`,
  `get_configured_auth_credentials`, `require_login`, `require_basic_login`);
* session-id sanitization (`_get_history_path`).
-/

/-! ## Python string primitives -/

/-- Python whitespace characters (the ASCII subset relevant here:
space, tab, newline, vertical tab, form feed, carriage return). -/
def pyIsSpace (c : Char) : Bool :=
  c == ' ' || c == '\t' || c == '\n' || c == '\x0b' || c == '\x0c' || c == '\r'

/-- Python `str.rstrip()`: remove trailing whitespace. -/
def pyRstrip (s : String) : String :=
  String.mk ((s.toList.reverse.dropWhile pyIsSpace).reverse)

/-- Python `str.strip()`: remove leading and trailing whitespace. -/
def pyStrip (s : String) : String :=
  String.mk (((s.toList.dropWhile pyIsSpace).reverse.dropWhile pyIsSpace).reverse)

/-- Python `a or b` on optional strings: `None` and `""` are falsy, so the
second operand is taken exactly when the first is absent or empty. -/
def pyOr (a b : Option String) : Option String :=
  match a with
  | some s => if s = "" then b else some s
  | none => b

/-- Python truthiness of an `Optional[str]`: `None` and `""` are falsy. -/
def pyTruthyOpt : Option String → Bool
  | none => false
  | some s => s ≠ ""

/-! ## Base64 (`base64.b64encode` / `base64.b64decode`)

Bytes are naturals `< 256`; base64 text is the list of its character codes.
-/

/-- Character code of the base64 alphabet symbol for a 6-bit value. -/
def sixbitToChar (n : Nat) : Nat :=
  if n < 26 then 65 + n
  else if n < 52 then 97 + (n - 26)
  else if n < 62 then 48 + (n - 52)
  else if n = 62 then 43
  else 47

/-- Inverse alphabet lookup: the 6-bit value of a base64 character code,
or `none` for a character outside the alphabet. -/
def charToSixbit (c : Nat) : Option Nat :=
  if 65 ≤ c ∧ c ≤ 90 then some (c - 65)
  else if 97 ≤ c ∧ c ≤ 122 then some (c - 97 + 26)
  else if 48 ≤ c ∧ c ≤ 57 then some (c - 48 + 52)
  else if c = 43 then some 62
  else if c = 47 then some 63
  else none

/-- `base64.b64encode`: encode a byte list three bytes at a time; the final
group of one or two bytes is padded with `'='` (code 61). -/
def b64encode : List Nat → List Nat
  | [] => []
  | [a] => [sixbitToChar (a / 4), sixbitToChar (a % 4 * 16), 61, 61]
  | [a, b] =>
      [sixbitToChar (a / 4), sixbitToChar (a % 4 * 16 + b / 16),
       sixbitToChar (b % 16 * 4), 61]
  | a :: b :: c :: rest =>
      sixbitToChar (a / 4) :: sixbitToChar (a % 4 * 16 + b / 16) ::
      sixbitToChar (b % 16 * 4 + c / 64) :: sixbitToChar (c % 64) ::
      b64encode rest

/-- Characters `binascii` keeps when scanning base64 input: the alphabet
plus the padding character `'='`. -/
def isB64Char (c : Nat) : Bool :=
  (charToSixbit c).isSome || c == 61

/-- Decode a base64 text four characters at a time; `'='` padding is only
accepted at the end of the input, anything else fails (`binascii.Error`,
a `ValueError`, modelled as `none`). -/
def b64decodeQuads : List Nat → Option (List Nat)
  | [] => some []
  | c1 :: c2 :: c3 :: c4 :: rest =>
      (match charToSixbit c1, charToSixbit c2 with
       | some v1, some v2 =>
         if c3 = 61 then
           if c4 = 61 ∧ rest = [] then some [v1 * 4 + v2 / 16] else none
         else
           match charToSixbit c3 with
           | some v3 =>
             if c4 = 61 then
               if rest = [] then some [v1 * 4 + v2 / 16, v2 % 16 * 16 + v3 / 4]
               else none
             else
               match charToSixbit c4 with
               | some v4 =>
                 match b64decodeQuads rest with
                 | some tail =>
                     some ((v1 * 4 + v2 / 16) :: (v2 % 16 * 16 + v3 / 4) ::
                           (v3 % 4 * 64 + v4) :: tail)
                 | none => none
               | none => none
           | none => none
       | _, _ => none)
  | _ => none

/-- `base64.b64decode` (default `validate=False`): characters outside the
alphabet are discarded first, then the remainder must be well-padded
groups of four. -/
def b64decode (s : List Nat) : Option (List Nat) :=
  b64decodeQuads (s.filter isB64Char)

theorem charToSixbit_sixbitToChar : ∀ n, n < 64 → charToSixbit (sixbitToChar n) = some n := by
  decide

theorem sixbitToChar_ne_61 : ∀ n, n < 64 → sixbitToChar n ≠ 61 := by
  decide

theorem isB64Char_sixbitToChar : ∀ n, n < 64 → isB64Char (sixbitToChar n) = true := by
  decide

theorem b64decodeQuads_b64encode :
    ∀ bs : List Nat, (∀ b ∈ bs, b < 256) → b64decodeQuads (b64encode bs) = some bs
  | [], _ => by simp [b64encode, b64decodeQuads]
  | [a], h => by
      have ha : a < 256 := h a (by simp)
      have h1 := charToSixbit_sixbitToChar (a / 4) (by omega)
      have h2 := charToSixbit_sixbitToChar (a % 4 * 16) (by omega)
      simp only [b64encode]
      simp [b64decodeQuads, h1, h2]
      omega
  | [a, b], h => by
      have ha : a < 256 := h a (by simp)
      have hb : b < 256 := h b (by simp)
      have h1 := charToSixbit_sixbitToChar (a / 4) (by omega)
      have h2 := charToSixbit_sixbitToChar (a % 4 * 16 + b / 16) (by omega)
      have h3 := charToSixbit_sixbitToChar (b % 16 * 4) (by omega)
      have n3 := sixbitToChar_ne_61 (b % 16 * 4) (by omega)
      simp only [b64encode]
      simp [b64decodeQuads, h1, h2, h3, n3]
      omega
  | a :: b :: c :: rest, h => by
      have ha : a < 256 := h a (by simp)
      have hb : b < 256 := h b (by simp)
      have hc : c < 256 := h c (by simp)
      have h1 := charToSixbit_sixbitToChar (a / 4) (by omega)
      have h2 := charToSixbit_sixbitToChar (a % 4 * 16 + b / 16) (by omega)
      have h3 := charToSixbit_sixbitToChar (b % 16 * 4 + c / 64) (by omega)
      have h4 := charToSixbit_sixbitToChar (c % 64) (by omega)
      have n3 := sixbitToChar_ne_61 (b % 16 * 4 + c / 64) (by omega)
      have n4 := sixbitToChar_ne_61 (c % 64) (by omega)
      have ih := b64decodeQuads_b64encode rest (fun x hx => h x (by simp [hx]))
      simp only [b64encode]
      simp [b64decodeQuads, h1, h2, h3, h4, n3, n4, ih]
      omega

theorem isB64Char_61 : isB64Char 61 = true := rfl

theorem filter_isB64Char_b64encode :
    ∀ bs : List Nat, (∀ b ∈ bs, b < 256) →
      (b64encode bs).filter isB64Char = b64encode bs
  | [], _ => rfl
  | [a], h => by
      have ha : a < 256 := h a (by simp)
      have k1 := isB64Char_sixbitToChar (a / 4) (by omega)
      have k2 := isB64Char_sixbitToChar (a % 4 * 16) (by omega)
      simp only [b64encode, List.filter_cons, k1, k2, isB64Char_61, if_true, List.filter_nil]
  | [a, b], h => by
      have ha : a < 256 := h a (by simp)
      have hb : b < 256 := h b (by simp)
      have k1 := isB64Char_sixbitToChar (a / 4) (by omega)
      have k2 := isB64Char_sixbitToChar (a % 4 * 16 + b / 16) (by omega)
      have k3 := isB64Char_sixbitToChar (b % 16 * 4) (by omega)
      simp only [b64encode, List.filter_cons, k1, k2, k3, isB64Char_61, if_true, List.filter_nil]
  | a :: b :: c :: rest, h => by
      have ha : a < 256 := h a (by simp)
      have hb : b < 256 := h b (by simp)
      have hc : c < 256 := h c (by simp)
      have k1 := isB64Char_sixbitToChar (a / 4) (by omega)
      have k2 := isB64Char_sixbitToChar (a % 4 * 16 + b / 16) (by omega)
      have k3 := isB64Char_sixbitToChar (b % 16 * 4 + c / 64) (by omega)
      have k4 := isB64Char_sixbitToChar (c % 64) (by omega)
      have ih := filter_isB64Char_b64encode rest (fun x hx => h x (by simp [hx]))
      simp only [b64encode, List.filter_cons, k1, k2, k3, k4, if_true, ih]

/-- Round trip of the base64 pair: decoding an encoded byte list restores it. -/
theorem b64decode_b64encode (bs : List Nat) (h : ∀ b ∈ bs, b < 256) :
    b64decode (b64encode bs) = some bs := by
  unfold b64decode
  rw [filter_isB64Char_b64encode bs h, b64decodeQuads_b64encode bs h]

theorem b64encode_ne_nil : ∀ bs : List Nat, bs ≠ [] → b64encode bs ≠ []
  | [], h => absurd rfl h
  | [_], _ => by simp [b64encode]
  | [_, _], _ => by simp [b64encode]
  | _ :: _ :: _ :: _, _ => by simp [b64encode]

/-! ## Image data and `decode_image_data` -/

/-- The `data` payload of an inline-data part: Python `bytes` or `str`
(a string is the list of its character codes). -/
inductive ImageData where
  | bytes (bs : List Nat)
  | str (s : List Nat)
deriving DecidableEq

/-- `decode_image_data` (identical in `app.py` and the utils module):
`None` stays `None`, `bytes` pass through unchanged, a `str` is base64
decoded with failures (`ValueError`) mapped to `None`. -/
def decode_image_data : Option ImageData → Option (List Nat)
  | none => none
  | some (ImageData.bytes bs) => some bs
  | some (ImageData.str s) => b64decode s

/-! ## History entries and `_serialize_history` / `_deserialize_history` -/

/-- An in-memory history entry (the dict built in `main`): `entry.get` on a
missing key returns `None`, so every field is optional; a non-`bytes`
image value behaves like an absent one in `_serialize_history`. -/
structure HistoryEntry where
  id : Option String
  prompt : Option String
  model : Option String
  no_text : Option Bool
  image_bytes : Option (List Nat)
deriving DecidableEq

/-- A stored (JSON-ready) history entry as written by `_serialize_history`:
the image travels as a base64 string (its character codes) or `null`. -/
structure StoredEntry where
  id : Option String
  prompt : Option String
  model : Option String
  no_text : Option Bool
  image_b64 : Option (List Nat)
deriving DecidableEq

/-- One step of `_serialize_history`: base64-encode the image when it is a
byte string, otherwise store `null`. -/
def _serialize_entry (e : HistoryEntry) : StoredEntry :=
  { id := e.id, prompt := e.prompt, model := e.model, no_text := e.no_text,
    image_b64 :=
      match e.image_bytes with
      | some bs => some (b64encode bs)
      | none => none }

/-- `_serialize_history`: serialize each entry in order. -/
def _serialize_history (history : List HistoryEntry) : List StoredEntry :=
  history.map _serialize_entry

/-- One step of `_deserialize_history`:
`image_bytes = decode_image_data(image_b64) if image_b64 else None`,
so `null` and the empty string are both mapped to `None`. -/
def _deserialize_entry (e : StoredEntry) : HistoryEntry :=
  { id := e.id, prompt := e.prompt, model := e.model, no_text := e.no_text,
    image_bytes :=
      match e.image_b64 with
      | none => none
      | some s => if s = [] then none else decode_image_data (some (ImageData.str s)) }

/-- `_deserialize_history`: deserialize each entry in order. -/
def _deserialize_history (payload : List StoredEntry) : List HistoryEntry :=
  payload.map _deserialize_entry

theorem deserialize_serialize_entry (e : HistoryEntry)
    (hne : e.image_bytes ≠ some [])
    (hb : ∀ x ∈ e.image_bytes.getD [], x < 256) :
    _deserialize_entry (_serialize_entry e) = e := by
  cases e with
  | mk id prompt model no_text image_bytes =>
    cases image_bytes with
    | none => rfl
    | some bs =>
      have hbs : bs ≠ [] := by
        intro hnil
        exact hne (by simp [hnil])
      have hlt : ∀ x ∈ bs, x < 256 := by simpa using hb
      simp only [_serialize_entry, _deserialize_entry]
      rw [if_neg (b64encode_ne_nil bs hbs)]
      simp [decode_image_data, b64decode_b64encode bs hlt]

/-- C1 counterexample: an entry whose image payload is the empty byte string
does not round trip. `_serialize_history` stores it as the empty base64
string, and `_deserialize_history` treats the empty string as falsy
(`if image_b64 else None`), so the reloaded entry has no image at all even
though the original carried the (empty) payload. -/
theorem C1_counterexample :
    (_deserialize_history (_serialize_history
        [{ id := none, prompt := some "p", model := some "m", no_text := some false,
           image_bytes := some ([] : List Nat) }])).map HistoryEntry.image_bytes
      = [none]
    ∧ some ([] : List Nat) ≠ none := by decide

/-- C1 (amended): for every history list whose entries carry either no image
or a non-empty image byte string, serializing and then deserializing yields
the very same list: same length and order, equal `prompt`, `model` and
`no_text` fields, and every image payload byte-for-byte equal after the
base64 encode/decode round trip. (The amendment excludes the empty image
payload, which the code maps to an absent image on reload.) -/
theorem C1_round_trip (history : List HistoryEntry)
    (hne : ∀ e ∈ history, e.image_bytes ≠ some [])
    (hb : ∀ e ∈ history, ∀ x ∈ e.image_bytes.getD [], x < 256) :
    _deserialize_history (_serialize_history history) = history := by
  induction history with
  | nil => rfl
  | cons e rest ih =>
    have hmap := ih (fun x hx => hne x (by simp [hx])) (fun x hx => hb x (by simp [hx]))
    simp only [_serialize_history, _deserialize_history, List.map_cons] at hmap ⊢
    rw [deserialize_serialize_entry e (hne e (by simp)) (hb e (by simp)), hmap]

/-- C1 witness: the round trip evaluated on a concrete two-entry history. -/
theorem C1_witness :
    _deserialize_history (_serialize_history
        [{ id := some "img_1", prompt := some "cat",
           model := some "models/gemini-2.5-flash-image-preview",
           no_text := some true, image_bytes := some [0, 127, 255] },
         { id := none, prompt := some "dog", model := some "m",
           no_text := some false, image_bytes := none }])
      = [{ id := some "img_1", prompt := some "cat",
           model := some "models/gemini-2.5-flash-image-preview",
           no_text := some true, image_bytes := some [0, 127, 255] },
         { id := none, prompt := some "dog", model := some "m",
           no_text := some false, image_bytes := none }] :=
  C1_round_trip _ (by decide) (by decide)

/-! ## Response model (`collect_image_bytes` / `collect_text_parts`)

The external client may return either attribute-style objects or plain
dicts. Every node carries its style. `getattr(x, f, None)` finds the field
only on attribute-style nodes, `x.get(f)` only on dict-style nodes, and
calling `.get` on anything without that method (an attribute-style object,
or `None`) raises `AttributeError` (modelled as `Except.error ()`).

For the `candidates`, `parts`, `inline_data`, `text` and `data` fields a
key that is present with value `None` behaves exactly like a missing one
on every code path (the reader either uses a `None` default or falls
through on falsiness), so those fields are `Option`s with `none` standing
for "missing or `None`". The one field where the two cases differ
observably is a dict-style candidate's `"content"`:
`candidate.get("content", {})` substitutes `{}` only when the key is
missing, while a stored `None` flows into `.get("parts", [])` and raises.
That field therefore keeps all three states, via `PyField`.
-/

/-- Shape of a Python object: attribute-style or dict-style. -/
inductive Style where
  | attr
  | dict
deriving DecidableEq

/-- An `inline_data` node with its `data` payload. -/
structure InlineData where
  style : Style
  data : Option ImageData
deriving DecidableEq

/-- A content part: optional `inline_data` and optional `text`. -/
structure ContentPart where
  style : Style
  inline_data : Option InlineData
  text : Option String
deriving DecidableEq

/-- A candidate's `content` node with its optional `parts` list. -/
structure Content where
  style : Style
  parts : Option (List ContentPart)
deriving DecidableEq

/-- A field that distinguishes "key/attribute missing" from "present with
value `None`" from "present with a value": on a dict-style candidate,
`candidate.get("content", {})` treats the first and second cases
differently. -/
inductive PyField (α : Type) where
  | absent
  | pynone
  | val (a : α)
deriving DecidableEq

/-- One response candidate with its `content` field (missing, `None`, or a
content node). -/
structure Candidate where
  style : Style
  content : PyField Content
deriving DecidableEq

/-- The response object with its optional `candidates` list. -/
structure Response where
  style : Style
  candidates : Option (List Candidate)
deriving DecidableEq

deriving instance DecidableEq for Except

/-- The `inline_data` lookup in `collect_image_bytes`:
`getattr(part, "inline_data", None)`, then the dict fallback
`part.get("inline_data")` when the first gave `None`. -/
def partInline (p : ContentPart) : Option InlineData :=
  let inline := if p.style = Style.attr then p.inline_data else none
  match inline with
  | some i => some i
  | none => if p.style = Style.dict then p.inline_data else none

/-- The `data` lookup in `collect_image_bytes`:
`getattr(inline, "data", None)` with the dict fallback `inline.get("data")`. -/
def inlineGetData (i : InlineData) : Option ImageData :=
  let d := if i.style = Style.attr then i.data else none
  match d with
  | some v => some v
  | none => if i.style = Style.dict then i.data else none

/-- The `text` lookup in `collect_text_parts`:
`getattr(part, "text", None)` with the dict fallback `part.get("text")`. -/
def partText (p : ContentPart) : Option String :=
  let t := if p.style = Style.attr then p.text else none
  match t with
  | some v => some v
  | none => if p.style = Style.dict then p.text else none

/-- `extract_parts`: `getattr(candidate, "content", None)` (which yields
`None` for a missing attribute and for an attribute stored as `None`
alike) then `getattr(content, "parts", None)`; when that chain yields
`None` and the candidate is a dict,
`candidate.get("content", {}).get("parts", [])` — the default `{}` is used
only when the `"content"` key is missing, so this raises `AttributeError`
both when the key holds `None` (`None.get`) and when it holds an
attribute-style object (no `.get` method); finally `parts or []`. -/
def extract_parts (candidate : Candidate) : Except Unit (List ContentPart) :=
  let content : Option Content :=
    if candidate.style = Style.attr then
      match candidate.content with
      | PyField.val ct => some ct
      | _ => none
    else none
  let parts : Option (List ContentPart) :=
    match content with
    | some ct => if ct.style = Style.attr then ct.parts else none
    | none => none
  match parts with
  | some ps => Except.ok ps
  | none =>
    if candidate.style = Style.dict then
      match candidate.content with
      | PyField.absent => Except.ok []
      | PyField.pynone => Except.error ()
      | PyField.val ct =>
        if ct.style = Style.dict then Except.ok (ct.parts.getD [])
        else Except.error ()
    else Except.ok []

/-- The per-part body of the scan loop in `collect_image_bytes`: the part
yields an image exactly when its inline data is present and
`decode_image_data` returns a truthy (non-empty) byte string. -/
def partImage (p : ContentPart) : Option (List Nat) :=
  match partInline p with
  | none => none
  | some inline =>
    match decode_image_data (inlineGetData inline) with
    | some bs => if bs = [] then none else some bs
    | none => none

/-- The inner loop of `collect_image_bytes` over one candidate's parts:
first part with a truthy decoded image wins, all others are skipped. -/
def findImageInParts : List ContentPart → Option (List Nat)
  | [] => none
  | p :: ps =>
    match partImage p with
    | some bs => some bs
    | none => findImageInParts ps

/-- The outer loop of `collect_image_bytes` over candidates; an
`AttributeError` from `extract_parts` propagates. -/
def collect_image_bytes_go : List Candidate → Except Unit (Option (List Nat))
  | [] => Except.ok none
  | c :: cs =>
    match extract_parts c with
    | Except.error e => Except.error e
    | Except.ok ps =>
      match findImageInParts ps with
      | some img => Except.ok (some img)
      | none => collect_image_bytes_go cs

/-- `getattr(response, "candidates", None) or []`: only attribute-style
responses expose their candidates; a dict-shaped response yields `[]`. -/
def responseCandidates (r : Response) : List Candidate :=
  (if r.style = Style.attr then r.candidates else none).getD []

/-- `collect_image_bytes`: scan all candidates and parts in order and
return the first truthy decoded inline image, `none` when there is none. -/
def collect_image_bytes (response : Response) : Except Unit (Option (List Nat)) :=
  collect_image_bytes_go (responseCandidates response)

/-- The inner loop of `collect_text_parts`: keep every truthy (non-empty)
text field in order. -/
def textsOfParts : List ContentPart → List String
  | [] => []
  | p :: ps =>
    match partText p with
    | some t => if t = "" then textsOfParts ps else t :: textsOfParts ps
    | none => textsOfParts ps

/-- The outer loop of `collect_text_parts` over candidates. -/
def collect_text_parts_go : List Candidate → Except Unit (List String)
  | [] => Except.ok []
  | c :: cs =>
    match extract_parts c with
    | Except.error e => Except.error e
    | Except.ok ps =>
      match collect_text_parts_go cs with
      | Except.error e => Except.error e
      | Except.ok ts => Except.ok (textsOfParts ps ++ ts)

/-- `collect_text_parts`: every non-empty text fragment across all
candidates and parts, in encounter order. -/
def collect_text_parts (response : Response) : Except Unit (List String) :=
  collect_text_parts_go (responseCandidates response)

theorem findImageInParts_first (ps1 ps2 : List ContentPart) (p : ContentPart)
    (img : List Nat)
    (h1 : ∀ q ∈ ps1, partImage q = none) (hp : partImage p = some img) :
    findImageInParts (ps1 ++ p :: ps2) = some img := by
  induction ps1 with
  | nil => simp only [List.nil_append, findImageInParts, hp]
  | cons q qs ih =>
    have hq : partImage q = none := h1 q (by simp)
    simp only [List.cons_append, findImageInParts, hq]
    exact ih (fun x hx => h1 x (by simp [hx]))

theorem collect_image_bytes_go_first (cs1 cs2 : List Candidate) (c : Candidate)
    (img : List Nat)
    (h1 : ∀ d ∈ cs1, ∃ qs, extract_parts d = Except.ok qs ∧ findImageInParts qs = none)
    (hc : ∃ ps, extract_parts c = Except.ok ps ∧ findImageInParts ps = some img) :
    collect_image_bytes_go (cs1 ++ c :: cs2) = Except.ok (some img) := by
  induction cs1 with
  | nil =>
    obtain ⟨ps, hcp, hfind⟩ := hc
    simp only [List.nil_append, collect_image_bytes_go, hcp, hfind]
  | cons d ds ih =>
    obtain ⟨qs, hdq, hnone⟩ := h1 d (by simp)
    simp only [List.cons_append, collect_image_bytes_go, hdq, hnone]
    exact ih (fun x hx => h1 x (by simp [hx]))

/-- C2 (amended): image extraction scans candidates and their parts in
encounter order and returns the first inline-data payload that decodes to a
non-empty byte string; parts with absent inline data, malformed base64, or
an empty decoded payload are skipped without aborting the scan, so a later
part's valid image is still found; once found, the remaining parts and all
later candidates are ignored (no merging). (The amendment, forced by the
counterexample, is "decodes to a non-empty byte string" instead of
"decodes successfully": `if image_bytes:` also skips a successfully decoded
empty payload.) -/
theorem C2_first_image_wins (r : Response) (cs1 cs2 : List Candidate)
    (c : Candidate) (ps1 ps2 : List ContentPart) (p : ContentPart)
    (img : List Nat)
    (hr : r.style = Style.attr)
    (hcs : r.candidates = some (cs1 ++ c :: cs2))
    (hskip : ∀ d ∈ cs1, ∃ qs, extract_parts d = Except.ok qs ∧ findImageInParts qs = none)
    (hc : extract_parts c = Except.ok (ps1 ++ p :: ps2))
    (hps : ∀ q ∈ ps1, partImage q = none)
    (hp : partImage p = some img) :
    collect_image_bytes r = Except.ok (some img) := by
  have hrc : responseCandidates r = cs1 ++ c :: cs2 := by
    simp [responseCandidates, hr, hcs]
  unfold collect_image_bytes
  rw [hrc]
  exact collect_image_bytes_go_first cs1 cs2 c img hskip
    ⟨ps1 ++ p :: ps2, hc, findImageInParts_first ps1 ps2 p img hps hp⟩

/-- C2 counterexample: the first part's inline data is the empty base64
string, which decodes successfully (to the empty byte string), yet
extraction skips it (`if image_bytes:` is falsy on empty bytes) and returns
the second part's image instead of the first successfully decoded payload. -/
theorem C2_counterexample :
    decode_image_data (inlineGetData ⟨Style.attr, some (ImageData.str [])⟩)
      = some [] ∧
    collect_image_bytes ⟨Style.attr, some [⟨Style.attr, PyField.val ⟨Style.attr, some
        [⟨Style.attr, some ⟨Style.attr, some (ImageData.str [])⟩, none⟩,
         ⟨Style.attr, some ⟨Style.attr, some (ImageData.bytes [1, 2, 3])⟩, none⟩]⟩⟩]⟩
      = Except.ok (some [1, 2, 3]) ∧
    ([1, 2, 3] : List Nat) ≠ [] := by
  refine ⟨rfl, rfl, by decide⟩

/-- C2 witness: a malformed base64 part (`"A"`, invalid padding) followed by
a valid raw-bytes part; the scan skips the malformed part and returns the
later image. -/
theorem C2_witness :
    collect_image_bytes ⟨Style.attr, some [⟨Style.attr, PyField.val ⟨Style.attr, some
        [⟨Style.attr, some ⟨Style.attr, some (ImageData.str [65])⟩, none⟩,
         ⟨Style.attr, some ⟨Style.attr, some (ImageData.bytes [9, 9])⟩, none⟩]⟩⟩]⟩
      = Except.ok (some [9, 9]) :=
  C2_first_image_wins
    ⟨Style.attr, some [⟨Style.attr, PyField.val ⟨Style.attr, some
        [⟨Style.attr, some ⟨Style.attr, some (ImageData.str [65])⟩, none⟩,
         ⟨Style.attr, some ⟨Style.attr, some (ImageData.bytes [9, 9])⟩, none⟩]⟩⟩]⟩
    [] []
    ⟨Style.attr, PyField.val ⟨Style.attr, some
        [⟨Style.attr, some ⟨Style.attr, some (ImageData.str [65])⟩, none⟩,
         ⟨Style.attr, some ⟨Style.attr, some (ImageData.bytes [9, 9])⟩, none⟩]⟩⟩
    [⟨Style.attr, some ⟨Style.attr, some (ImageData.str [65])⟩, none⟩] []
    ⟨Style.attr, some ⟨Style.attr, some (ImageData.bytes [9, 9])⟩, none⟩
    [9, 9]
    rfl rfl
    (by intro d hd; exact absurd hd (List.not_mem_nil d))
    rfl (by decide) (by decide)

/-- C3 counterexample: the very same candidate list yields an image and a
text fragment under an attribute-style response but nothing under a
mapping-style response — mapping-style nesting is not tolerated at the
response level (`getattr(response, "candidates", None)` only). Moreover
two error paths exist: a mapping-style candidate whose `"content"` key is
present but `None` raises `AttributeError` (`None.get("parts", [])`), and
so does a mapping-style candidate holding an attribute-style content (no
`.get` method) — neither yields an empty result. -/
theorem C3_counterexample :
    collect_image_bytes ⟨Style.attr, some [⟨Style.attr, PyField.val ⟨Style.attr, some
        [⟨Style.attr, some ⟨Style.attr, some (ImageData.bytes [7])⟩, some "hi"⟩]⟩⟩]⟩
      = Except.ok (some [7]) ∧
    collect_image_bytes ⟨Style.dict, some [⟨Style.attr, PyField.val ⟨Style.attr, some
        [⟨Style.attr, some ⟨Style.attr, some (ImageData.bytes [7])⟩, some "hi"⟩]⟩⟩]⟩
      = Except.ok none ∧
    collect_text_parts ⟨Style.attr, some [⟨Style.attr, PyField.val ⟨Style.attr, some
        [⟨Style.attr, some ⟨Style.attr, some (ImageData.bytes [7])⟩, some "hi"⟩]⟩⟩]⟩
      = Except.ok ["hi"] ∧
    collect_text_parts ⟨Style.dict, some [⟨Style.attr, PyField.val ⟨Style.attr, some
        [⟨Style.attr, some ⟨Style.attr, some (ImageData.bytes [7])⟩, some "hi"⟩]⟩⟩]⟩
      = Except.ok [] ∧
    collect_image_bytes ⟨Style.attr, some [⟨Style.dict, PyField.pynone⟩]⟩
      = Except.error () ∧
    collect_image_bytes ⟨Style.attr, some [⟨Style.dict, PyField.val ⟨Style.attr, some []⟩⟩]⟩
      = Except.error () := by
  exact ⟨rfl, rfl, rfl, rfl, rfl, rfl⟩

/-- C3 (amended): a truly missing level always yields no image and an
empty text sequence without failure, and both nesting styles are tolerated
at the candidate, content, part and inline-data levels (for
style-consistent dict nesting); but at the response level only
attribute-style candidates are read — a mapping-style response yields no
image and no text even when candidates are present — and two
mapping-style-candidate cases raise `AttributeError` instead of yielding
an empty result: a `"content"` key present with value `None`, and a
`"content"` key holding an attribute-style object. -/
theorem C3_tolerance (r : Response) (ps : List ContentPart)
    (i : Option InlineData) (t : Option String) (d : Option ImageData) :
    (r.candidates = none ∨ r.candidates = some [] →
      collect_image_bytes r = Except.ok none ∧ collect_text_parts r = Except.ok []) ∧
    (r.style = Style.dict →
      collect_image_bytes r = Except.ok none ∧ collect_text_parts r = Except.ok []) ∧
    (∀ s, extract_parts ⟨s, PyField.absent⟩ = Except.ok []) ∧
    (extract_parts ⟨Style.attr, PyField.pynone⟩ = Except.ok [] ∧
     extract_parts ⟨Style.dict, PyField.pynone⟩ = Except.error ()) ∧
    (∀ s, extract_parts ⟨s, PyField.val ⟨s, none⟩⟩ = Except.ok []) ∧
    (extract_parts ⟨Style.attr, PyField.val ⟨Style.attr, some ps⟩⟩ = Except.ok ps ∧
     extract_parts ⟨Style.dict, PyField.val ⟨Style.dict, some ps⟩⟩ = Except.ok ps) ∧
    (partInline ⟨Style.attr, i, t⟩ = partInline ⟨Style.dict, i, t⟩ ∧
     partText ⟨Style.attr, i, t⟩ = partText ⟨Style.dict, i, t⟩) ∧
    inlineGetData ⟨Style.attr, d⟩ = inlineGetData ⟨Style.dict, d⟩ := by
  obtain ⟨st, cands⟩ := r
  refine ⟨?_, ?_, fun s => by cases s <;> rfl, ⟨rfl, rfl⟩,
    fun s => by cases s <;> rfl, ⟨rfl, rfl⟩, ⟨?_, ?_⟩, ?_⟩
  · cases st <;> rintro (rfl | rfl) <;> exact ⟨rfl, rfl⟩
  · cases st
    · intro h; simp at h
    · intro _; exact ⟨rfl, rfl⟩
  · cases i <;> rfl
  · cases t <;> rfl
  · cases d <;> rfl

/-- C3 witness: the amended tolerance theorem evaluated on a concrete
response with no candidates. -/
theorem C3_witness :
    collect_image_bytes ⟨Style.attr, none⟩ = Except.ok none ∧
    collect_text_parts ⟨Style.attr, none⟩ = Except.ok [] :=
  (C3_tolerance ⟨Style.attr, none⟩ [] none none none).1 (Or.inl rfl)

/-! ## Prompt composition (`main`, lines 388-395 of `app.py`) -/

/-- The fixed quality-boost suffix `DEFAULT_PROMPT_SUFFIX`. -/
def DEFAULT_PROMPT_SUFFIX : String :=
  "((masterpiece, best quality, ultra-detailed, photorealistic, 8k, sharp focus))"

/-- The fixed no-text suffix `NO_TEXT_TOGGLE_SUFFIX`. -/
def NO_TEXT_TOGGLE_SUFFIX : String :=
  "((no background text, no symbols, no markings, no letters anywhere, no typography, no signboard, no watermark, no logo, no text, no subtitles, no labels, no poster elements, neutral background))"

/-- The composed request text: right-trim the prompt, join it to the quality
suffix with a newline (or use the suffix alone when the trimmed prompt is
empty), then append the no-text suffix when the toggle is on. -/
def compose_prompt_for_request (prompt : String) (enforce_no_text : Bool) : String :=
  let stripped_prompt := pyRstrip prompt
  let prompt_for_request :=
    if stripped_prompt ≠ "" then stripped_prompt ++ "\n" ++ DEFAULT_PROMPT_SUFFIX
    else DEFAULT_PROMPT_SUFFIX
  if enforce_no_text then prompt_for_request ++ "\n" ++ NO_TEXT_TOGGLE_SUFFIX
  else prompt_for_request

/-- C4: with an empty user input (after right-trimming) and the no-text
toggle off, the composed request text is exactly the quality suffix with no
leading newline; with a non-empty input (after right-trimming) and the
toggle on, it is the trimmed prompt, a newline, the quality suffix, a
newline, and the no-text suffix, in that order. -/
theorem C4_composed_prompt (prompt : String) :
    (pyRstrip prompt = "" →
      compose_prompt_for_request prompt false = DEFAULT_PROMPT_SUFFIX) ∧
    (pyRstrip prompt ≠ "" →
      compose_prompt_for_request prompt true
        = pyRstrip prompt ++ "\n" ++ DEFAULT_PROMPT_SUFFIX ++ "\n" ++ NO_TEXT_TOGGLE_SUFFIX) := by
  constructor
  · intro h
    simp [compose_prompt_for_request, h]
  · intro h
    simp [compose_prompt_for_request, h]

/-- C4 witness: both branches of the composition evaluated on concrete
prompts (an empty prompt, and a prompt with a trailing space). -/
theorem C4_witness :
    compose_prompt_for_request "" false = DEFAULT_PROMPT_SUFFIX ∧
    compose_prompt_for_request "a cat " true
      = pyRstrip "a cat " ++ "\n" ++ DEFAULT_PROMPT_SUFFIX ++ "\n" ++ NO_TEXT_TOGGLE_SUFFIX :=
  ⟨(C4_composed_prompt "").1 (by decide), (C4_composed_prompt "a cat ").2 (by decide)⟩

/-! ## Secret store, credentials and the auth gate -/

/-- The Streamlit secret store: top-level key lookups plus an optional
nested `auth` section. `none` for the whole store models `st.secrets`
raising (`StreamlitSecretNotFoundError`), which every reader catches. -/
structure SecretStore where
  top : String → Option String
  auth : Option (String → Option String)

/-- `get_secret_value`: a plain lookup; a missing store, a missing key and
a raising `.get` all collapse to `None`. -/
def get_secret_value (store : Option SecretStore) (key : String) : Option String :=
  match store with
  | none => none
  | some s => s.top key

/-- `_extract_credential`: first `not-None` value among the candidate keys
of a container. -/
def _extract_credential (container : String → Option String) : List String → Option String
  | [] => none
  | k :: ks =>
    match container k with
    | some v => some v
    | none => _extract_credential container ks

/-- `_normalize_credential`: strip the value, keep it only when non-empty. -/
def _normalize_credential : Option String → Option String
  | none => none
  | some v => if pyStrip v ≠ "" then some (pyStrip v) else none

/-- `get_secret_auth_credentials` (identical in both files): read the
`auth` section under its alternative key names, fall back to the top-level
`USERNAME`/`ID` and `PASSWORD`/`PASS` keys (Python `or`, so empty strings
are skipped), then normalize both values. -/
def get_secret_auth_credentials (store : Option SecretStore) :
    Option String × Option String :=
  match store with
  | none => (none, none)
  | some s =>
    let username0 : Option String :=
      match s.auth with
      | some a => _extract_credential a ["username", "id", "user", "name"]
      | none => none
    let password0 : Option String :=
      match s.auth with
      | some a => _extract_credential a ["password", "pass", "pwd"]
      | none => none
    let username1 : Option String :=
      match username0 with
      | some u => some u
      | none => pyOr (get_secret_value store "USERNAME") (get_secret_value store "ID")
    let password1 : Option String :=
      match password0 with
      | some p => some p
      | none => pyOr (get_secret_value store "PASSWORD") (get_secret_value store "PASS")
    (_normalize_credential username1, _normalize_credential password1)

/-- `get_configured_auth_credentials` in `app.py`: the secret-store pair
when both parts are truthy, otherwise the hardcoded fallback pair. -/
def get_configured_auth_credentials (store : Option SecretStore) : String × String :=
  match get_secret_auth_credentials store with
  | (some u, some p) => if u ≠ "" ∧ p ≠ "" then (u, p) else ("mezamashi", "mezamashi")
  | _ => ("mezamashi", "mezamashi")

/-- The generic mismatch message shown by both login functions. -/
def loginErrorMessage : String := "IDまたはPASSが正しくありません。"

/-- Outcome of one run of a login gate. -/
inductive LoginResult where
  | alreadyAuthed
  | missingCreds
  | success
  | failure (msg : String)
  | awaiting
deriving DecidableEq

/-- Initial value of `st.session_state["authenticated"]` on a fresh
session (`require_login` sets it to `False` when absent). -/
def initial_authenticated : Bool := false

/-- `require_login` in `app.py` as a step function of the session flag:
return immediately when already authenticated; halt with an info notice
when either configured credential is empty; otherwise render the form and,
on submission, grant access on an exact match of both fields or show the
generic error message. -/
def require_login (store : Option SecretStore) (authenticated : Bool)
    (submitted : Option (String × String)) : Bool × LoginResult :=
  if authenticated then (authenticated, LoginResult.alreadyAuthed)
  else
    let (username, password) := get_configured_auth_credentials store
    if username = "" ∨ password = "" then (authenticated, LoginResult.missingCreds)
    else
      match submitted with
      | some (u, p) =>
        if u = username ∧ p = password then (true, LoginResult.success)
        else (authenticated, LoginResult.failure loginErrorMessage)
      | none => (authenticated, LoginResult.awaiting)

/-- `require_basic_login` in the utils module: restore the flag from the
login cookie first; with no explicit credential arguments fall back to the
secret-store pair; halt with the "not configured" notice when either part
is falsy; otherwise behave like `require_login`. -/
def require_basic_login (store : Option SecretStore)
    (usernameArg passwordArg : Option String)
    (authenticated cookieLogin : Bool)
    (submitted : Option (String × String)) : Bool × LoginResult :=
  let auth := if ¬authenticated ∧ cookieLogin then true else authenticated
  if auth then (auth, LoginResult.alreadyAuthed)
  else
    let creds : Option String × Option String :=
      match usernameArg, passwordArg with
      | some u, some p => (some u, some p)
      | _, _ => get_secret_auth_credentials store
    if ¬(pyTruthyOpt creds.1 ∧ pyTruthyOpt creds.2) then (auth, LoginResult.missingCreds)
    else
      match submitted with
      | some (u, p) =>
        if some u = creds.1 ∧ some p = creds.2 then (true, LoginResult.success)
        else (auth, LoginResult.failure loginErrorMessage)
      | none => (auth, LoginResult.awaiting)

theorem get_configured_auth_credentials_ne_empty (store : Option SecretStore) :
    (get_configured_auth_credentials store).1 ≠ "" ∧
    (get_configured_auth_credentials store).2 ≠ "" := by
  unfold get_configured_auth_credentials
  rcases get_secret_auth_credentials store with ⟨u0, p0⟩
  rcases u0 with _ | u <;> rcases p0 with _ | p <;> simp
  by_cases hu : u = "" <;> by_cases hp : p = "" <;> simp [hu, hp]

/-- C5 counterexample: with no secret store at all (so no credential pair is
supplied anywhere), the hardcoded fallback still configures a pair, the
auth flag starts `false` — not `true` — and `require_login` renders the
login form (`awaiting`); `require_basic_login` halts with the
"not configured" notice and also leaves the flag `false`. There is no
open-access fallback. -/
theorem C5_counterexample :
    get_secret_auth_credentials none = (none, none) ∧
    initial_authenticated = false ∧
    require_login none false none = (false, LoginResult.awaiting) ∧
    require_basic_login none none none false false none
      = (false, LoginResult.missingCreds) := by
  exact ⟨rfl, rfl, rfl, rfl⟩

/-- C5 (amended): whenever the secret store does not supply a truthy
username/password pair, the auth flag still starts `false` and access is
not granted: `app.py`'s `require_login` falls back to the hardcoded pair
and shows the login form, and `require_basic_login` halts with the
"not configured" notice, leaving the flag `false`. -/
theorem C5_no_open_access (store : Option SecretStore)
    (h : ¬(pyTruthyOpt (get_secret_auth_credentials store).1 = true ∧
           pyTruthyOpt (get_secret_auth_credentials store).2 = true)) :
    initial_authenticated = false ∧
    require_login store false none = (false, LoginResult.awaiting) ∧
    require_basic_login store none none false false none
      = (false, LoginResult.missingCreds) := by
  refine ⟨rfl, ?_, ?_⟩
  · have hne := get_configured_auth_credentials_ne_empty store
    rcases hc : get_configured_auth_credentials store with ⟨u, p⟩
    rw [hc] at hne
    simp [require_login, hc, hne.1, hne.2]
  · simp only [require_basic_login]
    simp [h]

/-- C5 witness: the amended statement evaluated with an empty secret store. -/
theorem C5_witness :
    require_login none false none = (false, LoginResult.awaiting) ∧
    require_basic_login none none none false false none
      = (false, LoginResult.missingCreds) :=
  ⟨(C5_no_open_access none (by decide)).2.1, (C5_no_open_access none (by decide)).2.2⟩

/-- C6: from the logged-out state, submitting exactly the configured pair
sets the auth flag from `false` to `true` (and later runs return
immediately without showing the form again, so the transition happens
exactly once); submitting any non-matching pair leaves the flag `false`
and produces the one generic mismatch message, the same constant whether
the username, the password, or both were wrong. -/
theorem C6_login_transitions (store : Option SecretStore) (u p : String)
    (s : Option (String × String))
    (hmism : ¬(u = (get_configured_auth_credentials store).1 ∧
               p = (get_configured_auth_credentials store).2)) :
    require_login store false (some (get_configured_auth_credentials store))
      = (true, LoginResult.success) ∧
    require_login store true s = (true, LoginResult.alreadyAuthed) ∧
    require_login store false (some (u, p))
      = (false, LoginResult.failure loginErrorMessage) := by
  have hne := get_configured_auth_credentials_ne_empty store
  rcases hc : get_configured_auth_credentials store with ⟨cu, cp⟩
  rw [hc] at hne hmism
  refine ⟨?_, rfl, ?_⟩
  · simp [require_login, hc, hne.1, hne.2]
  · simp [require_login, hc, hne.1, hne.2]
    intro hu hp
    exact absurd ⟨hu, hp⟩ hmism

/-- C6 witness: the three transitions evaluated with an empty secret store
(configured pair is the hardcoded fallback) and a wrong username. -/
theorem C6_witness :
    require_login none false (some (get_configured_auth_credentials none))
      = (true, LoginResult.success) ∧
    require_login none true none = (true, LoginResult.alreadyAuthed) ∧
    require_login none false (some ("x", "mezamashi"))
      = (false, LoginResult.failure loginErrorMessage) :=
  C6_login_transitions none "x" "mezamashi" none (by decide)

/-- C9: whenever the secret store does not supply both a truthy username
and a truthy password, the configured pair is the hardcoded
`"mezamashi"/"mezamashi"`; consequently a (non-empty) pair is always
configured, and an unauthenticated run always goes through the login form:
it never returns early and never hits the "credentials not set" halt. -/
theorem C9_hardcoded_fallback (store : Option SecretStore) :
    (¬(pyTruthyOpt (get_secret_auth_credentials store).1 = true ∧
       pyTruthyOpt (get_secret_auth_credentials store).2 = true) →
      get_configured_auth_credentials store = ("mezamashi", "mezamashi")) ∧
    ((get_configured_auth_credentials store).1 ≠ "" ∧
     (get_configured_auth_credentials store).2 ≠ "") ∧
    (∀ s, (require_login store false s).2 ≠ LoginResult.alreadyAuthed ∧
          (require_login store false s).2 ≠ LoginResult.missingCreds) := by
  refine ⟨?_, get_configured_auth_credentials_ne_empty store, ?_⟩
  · intro h
    unfold get_configured_auth_credentials
    rcases hsc : get_secret_auth_credentials store with ⟨u0, p0⟩
    rw [hsc] at h
    rcases u0 with _ | u <;> rcases p0 with _ | p <;> simp_all [pyTruthyOpt]
  · intro s
    have hne := get_configured_auth_credentials_ne_empty store
    rcases hc : get_configured_auth_credentials store with ⟨cu, cp⟩
    rw [hc] at hne
    rcases s with _ | ⟨a, b⟩
    · simp [require_login, hc, hne.1, hne.2]
    · simp only [require_login, hc, hne.1, hne.2]
      by_cases hm : a = cu ∧ b = cp <;> simp [hm, hne.1, hne.2]

/-- C9 witness: the fallback pair and the form requirement evaluated with
an empty secret store. -/
theorem C9_witness :
    get_configured_auth_credentials none = ("mezamashi", "mezamashi") ∧
    (require_login none false none).2 ≠ LoginResult.missingCreds :=
  ⟨(C9_hardcoded_fallback none).1 (by decide),
   ((C9_hardcoded_fallback none).2.2 none).2⟩

/-! ## Secret/config resolver for the API key -/

/-- Environment for API-key resolution: the session override
(`st.session_state["config_api_key"]`, `none` when absent or not a
string), the secret store and the process environment (`os.getenv`). -/
structure ConfigEnv where
  session_config_api_key : Option String
  store : Option SecretStore
  osenv : String → Option String

/-- `DEFAULT_GEMINI_API_KEY`:
`get_secret_value("GEMINI_API_KEY") or os.getenv("GOOGLE_API_KEY") or
os.getenv("GEMINI_API_KEY") or ""` — a chain of Python `or`s, so the first
truthy (non-`None`, non-empty) value wins, verbatim, and the result is the
empty string when every source is falsy. -/
def DEFAULT_GEMINI_API_KEY (store : Option SecretStore)
    (osenv : String → Option String) : String :=
  match pyOr (pyOr (get_secret_value store "GEMINI_API_KEY")
        (osenv "GOOGLE_API_KEY")) (osenv "GEMINI_API_KEY") with
  | some s => if s = "" then "" else s
  | none => ""

/-- `get_current_api_key`: the session override wins when it is a string
with non-empty strip (and only the override is stripped); otherwise the
module-level default. -/
def get_current_api_key (e : ConfigEnv) : String :=
  match e.session_config_api_key with
  | some k => if pyStrip k ≠ "" then pyStrip k else DEFAULT_GEMINI_API_KEY e.store e.osenv
  | none => DEFAULT_GEMINI_API_KEY e.store e.osenv

/-- C7 counterexample: with no session override and a secret-store API key
carrying surrounding whitespace, the resolver returns the stored value
verbatim — not trimmed of surrounding whitespace as the claim states. -/
theorem C7_counterexample :
    get_current_api_key
      ⟨none,
       some ⟨fun k => if k = "GEMINI_API_KEY" then some " secret-key " else none, none⟩,
       fun _ => none⟩
      = " secret-key " ∧
    pyStrip " secret-key " = "secret-key" ∧
    (" secret-key " : String) ≠ "secret-key" := by
  refine ⟨rfl, by decide, by decide⟩

/-- C7 (amended): the resolver tries the layered sources in order — session
override, then secret store, then the `GOOGLE_API_KEY` and
`GEMINI_API_KEY` environment variables — and returns the first truthy
value; only the session override is trimmed (and skipped when blank),
store and environment values are returned verbatim; when every source is
absent or empty the result is the empty string, and resolution is a total
function (no exception). -/
theorem C7_resolver_order (e : ConfigEnv) :
    (∀ k, e.session_config_api_key = some k → pyStrip k ≠ "" →
      get_current_api_key e = pyStrip k) ∧
    (e.session_config_api_key = none →
      get_current_api_key e = DEFAULT_GEMINI_API_KEY e.store e.osenv) ∧
    (∀ k, e.session_config_api_key = some k → pyStrip k = "" →
      get_current_api_key e = DEFAULT_GEMINI_API_KEY e.store e.osenv) ∧
    (∀ s, get_secret_value e.store "GEMINI_API_KEY" = some s → s ≠ "" →
      DEFAULT_GEMINI_API_KEY e.store e.osenv = s) ∧
    (pyTruthyOpt (get_secret_value e.store "GEMINI_API_KEY") = false →
      ∀ s, e.osenv "GOOGLE_API_KEY" = some s → s ≠ "" →
        DEFAULT_GEMINI_API_KEY e.store e.osenv = s) ∧
    (pyTruthyOpt (get_secret_value e.store "GEMINI_API_KEY") = false →
      pyTruthyOpt (e.osenv "GOOGLE_API_KEY") = false →
      ∀ s, e.osenv "GEMINI_API_KEY" = some s → s ≠ "" →
        DEFAULT_GEMINI_API_KEY e.store e.osenv = s) ∧
    (pyTruthyOpt (get_secret_value e.store "GEMINI_API_KEY") = false →
      pyTruthyOpt (e.osenv "GOOGLE_API_KEY") = false →
      pyTruthyOpt (e.osenv "GEMINI_API_KEY") = false →
      DEFAULT_GEMINI_API_KEY e.store e.osenv = "") := by
  refine ⟨?_, ?_, ?_, ?_, ?_, ?_, ?_⟩
  · intro k hk hs
    simp [get_current_api_key, hk, hs]
  · intro hk
    simp [get_current_api_key, hk]
  · intro k hk hs
    simp [get_current_api_key, hk, hs]
  · intro s hs hne
    simp [DEFAULT_GEMINI_API_KEY, pyOr, hs, hne]
  · intro hfirst s hs hne
    rcases hg : get_secret_value e.store "GEMINI_API_KEY" with _ | g
    · simp [DEFAULT_GEMINI_API_KEY, pyOr, hg, hs, hne]
    · rw [hg] at hfirst
      have : g = "" := by simpa [pyTruthyOpt] using hfirst
      simp [DEFAULT_GEMINI_API_KEY, pyOr, hg, this, hs, hne]
  · intro hfirst hsecond s hs hne
    rcases hg : get_secret_value e.store "GEMINI_API_KEY" with _ | g <;>
      rcases ho : e.osenv "GOOGLE_API_KEY" with _ | o <;>
      rw [hg] at hfirst <;> rw [ho] at hsecond
    · simp [DEFAULT_GEMINI_API_KEY, pyOr, hg, ho, hs, hne]
    · have : o = "" := by simpa [pyTruthyOpt] using hsecond
      simp [DEFAULT_GEMINI_API_KEY, pyOr, hg, ho, this, hs, hne]
    · have : g = "" := by simpa [pyTruthyOpt] using hfirst
      simp [DEFAULT_GEMINI_API_KEY, pyOr, hg, ho, this, hs, hne]
    · have h1 : g = "" := by simpa [pyTruthyOpt] using hfirst
      have h2 : o = "" := by simpa [pyTruthyOpt] using hsecond
      simp [DEFAULT_GEMINI_API_KEY, pyOr, hg, ho, h1, h2, hs, hne]
  · intro hfirst hsecond hthird
    rcases hg : get_secret_value e.store "GEMINI_API_KEY" with _ | g <;>
      rcases ho : e.osenv "GOOGLE_API_KEY" with _ | o <;>
      rcases hm : e.osenv "GEMINI_API_KEY" with _ | m <;>
      rw [hg] at hfirst <;> rw [ho] at hsecond <;> rw [hm] at hthird <;>
      simp [pyTruthyOpt] at hfirst hsecond hthird <;>
      simp_all [DEFAULT_GEMINI_API_KEY, pyOr]

/-- C7 witness: the override branch of the resolver evaluated on a
concrete environment whose session override has surrounding whitespace. -/
theorem C7_witness :
    get_current_api_key ⟨some " k ", none, fun _ => none⟩ = pyStrip " k " :=
  (C7_resolver_order ⟨some " k ", none, fun _ => none⟩).1 " k " rfl (by decide)

/-! ## History file path (`_get_history_path`) -/

/-- Python `str.isalnum` restricted to ASCII (session identifiers here are
`uuid4().hex` strings): decimal digits and Latin letters. -/
def pyIsAlnumAscii (c : Char) : Bool :=
  decide ((48 ≤ c.toNat ∧ c.toNat ≤ 57) ∨ (65 ≤ c.toNat ∧ c.toNat ≤ 90) ∨
          (97 ≤ c.toNat ∧ c.toNat ≤ 122))

/-- The sanitization in `_get_history_path`: keep only alphanumeric
characters, hyphens and underscores. -/
def sanitize_session_id (session_id : String) : String :=
  String.mk (session_id.toList.filter
    (fun ch => pyIsAlnumAscii ch || ch == '-' || ch == '_'))

/-- The history file name `f"{safe_id}.json"`. -/
def history_file_name (session_id : String) : String :=
  sanitize_session_id session_id ++ ".json"

/-- `_get_history_path`: the file for a session identifier inside the
history directory (`os.path.join(history_root, f"{safe_id}.json")`). -/
def _get_history_path (history_root : String) (session_id : String) : String :=
  history_root ++ "/" ++ history_file_name session_id

/-! ## On-disk history load (`load_history_from_storage`) -/

/-- A JSON value as produced by `json.load`. -/
inductive Json where
  | null
  | bool (b : Bool)
  | num (n : Int)
  | str (s : String)
  | arr (elems : List Json)
  | obj (fields : List (String × Json))

/-- What reading a history file can observe: no file, an unreadable or
non-JSON file (`open`/`json.load` raises, caught by the `except`), or a
parsed JSON value. -/
inductive FileContent where
  | missing
  | unreadable
  | json (v : Json)

/-- Dict lookup on a parsed JSON object (`payload.get(key)`). -/
def jsonLookup : List (String × Json) → String → Option Json
  | [], _ => none
  | (k, v) :: rest, key => if k = key then some v else jsonLookup rest key

/-- A JSON value read back as an optional string field of a stored entry
(non-string values are not used by any code path modelled here). -/
def asStrOpt : Option Json → Option String
  | some (Json.str s) => some s
  | _ => none

/-- A JSON value read back as an optional boolean field. -/
def asBoolOpt : Option Json → Option Bool
  | some (Json.bool b) => some b
  | _ => none

/-- A JSON value read back as the optional base64 image string (character
codes); a non-string truthy value would make `decode_image_data` return
`None` just as an absent one does. -/
def asB64Opt : Option Json → Option (List Nat)
  | some (Json.str s) => some (s.toList.map Char.toNat)
  | _ => none

/-- Conversion of one parsed JSON history entry to a stored entry;
`entry.get(...)` on a non-dict entry raises `AttributeError`
(`Except.error ()`), which `load_history_from_storage` does not catch. -/
def storedOfJson : Json → Except Unit StoredEntry
  | Json.obj fields =>
    Except.ok
      { id := asStrOpt (jsonLookup fields "id"),
        prompt := asStrOpt (jsonLookup fields "prompt"),
        model := asStrOpt (jsonLookup fields "model"),
        no_text := asBoolOpt (jsonLookup fields "no_text"),
        image_b64 := asB64Opt (jsonLookup fields "image_b64") }
  | _ => Except.error ()

/-- Convert every parsed entry in order, propagating an `AttributeError`. -/
def storedOfJsonList : List Json → Except Unit (List StoredEntry)
  | [] => Except.ok []
  | j :: rest =>
    match storedOfJson j with
    | Except.ok e =>
      match storedOfJsonList rest with
      | Except.ok es => Except.ok (e :: es)
      | Except.error er => Except.error er
    | Except.error er => Except.error er

/-- `load_history_from_storage`: absence of a session identifier, a missing
file, an unreadable or unparsable file, a non-dict payload and a non-list
`history` field all yield `None`; otherwise the entries are deserialized. -/
def load_history_from_storage (fs : String → FileContent)
    (session_id : Option String) (history_dir : String) :
    Except Unit (Option (List HistoryEntry)) :=
  match session_id with
  | none => Except.ok none
  | some sid =>
    if sid = "" then Except.ok none
    else
      match fs (_get_history_path history_dir sid) with
      | FileContent.missing => Except.ok none
      | FileContent.unreadable => Except.ok none
      | FileContent.json payload =>
        match payload with
        | Json.obj fields =>
          match jsonLookup fields "history" with
          | some (Json.arr entries) =>
            match storedOfJsonList entries with
            | Except.ok stored => Except.ok (some (_deserialize_history stored))
            | Except.error er => Except.error er
          | _ => Except.ok none
        | _ => Except.ok none

/-- C8: loading history never propagates an I/O or parse error: a session
identifier that was never saved (missing file, or no identifier at all),
an unreadable or unparsable file, a payload that is not a dict, and a
`history` field that is not a list all yield absence (`None`), not an
error. -/
theorem C8_load_failures_absent (fs : String → FileContent) (dir : String)
    (sid : String) (j : Json) (fields : List (String × Json))
    (hsid : sid ≠ "") :
    (load_history_from_storage fs none dir = Except.ok none) ∧
    (load_history_from_storage fs (some "") dir = Except.ok none) ∧
    (fs (_get_history_path dir sid) = FileContent.missing →
      load_history_from_storage fs (some sid) dir = Except.ok none) ∧
    (fs (_get_history_path dir sid) = FileContent.unreadable →
      load_history_from_storage fs (some sid) dir = Except.ok none) ∧
    (fs (_get_history_path dir sid) = FileContent.json j →
      (∀ fl, j ≠ Json.obj fl) →
      load_history_from_storage fs (some sid) dir = Except.ok none) ∧
    (fs (_get_history_path dir sid) = FileContent.json (Json.obj fields) →
      (∀ xs, jsonLookup fields "history" ≠ some (Json.arr xs)) →
      load_history_from_storage fs (some sid) dir = Except.ok none) := by
  refine ⟨rfl, rfl, ?_, ?_, ?_, ?_⟩
  · intro hfs
    simp [load_history_from_storage, hsid, hfs]
  · intro hfs
    simp [load_history_from_storage, hsid, hfs]
  · intro hfs hnot
    rcases j with _ | _ | _ | _ | _ | fl
    · simp [load_history_from_storage, hsid, hfs]
    · simp [load_history_from_storage, hsid, hfs]
    · simp [load_history_from_storage, hsid, hfs]
    · simp [load_history_from_storage, hsid, hfs]
    · simp [load_history_from_storage, hsid, hfs]
    · exact absurd rfl (hnot fl)
  · intro hfs hnot
    simp only [load_history_from_storage, hsid, if_neg hsid, hfs]
    rcases hl : jsonLookup fields "history" with _ | v
    · rfl
    · rcases v with _ | _ | _ | _ | xs | _
      · rfl
      · rfl
      · rfl
      · rfl
      · exact absurd hl (hnot xs)
      · rfl

/-- C8 witness: loading with an empty file system and a fresh session
identifier returns absence. -/
theorem C8_witness :
    load_history_from_storage (fun _ => FileContent.missing)
      (some "f00d") "/tmp/streamlit_history" = Except.ok none :=
  (C8_load_failures_absent (fun _ => FileContent.missing) "/tmp/streamlit_history"
    "f00d" Json.null [] (by decide)).2.2.1 rfl

/-- C10: the file-name sanitization is not injective — the distinct session
identifiers `"a!b"` and `"a?b"` map to the same on-disk history path — and
every identifier made only of disallowed characters maps to the single
shared file name `".json"`. -/
theorem C10_sanitize_collisions (dir : String) (sid : String)
    (h : ∀ c ∈ sid.toList, (pyIsAlnumAscii c || c == '-' || c == '_') = false) :
    (_get_history_path dir "a!b" = _get_history_path dir "a?b" ∧
      ("a!b" : String) ≠ "a?b") ∧
    history_file_name sid = ".json" := by
  refine ⟨⟨?_, by decide⟩, ?_⟩
  · have hfn : history_file_name "a!b" = history_file_name "a?b" := by decide
    simp [_get_history_path, hfn]
  · have hfil : sid.toList.filter
        (fun ch => pyIsAlnumAscii ch || ch == '-' || ch == '_') = [] :=
      List.filter_eq_nil_iff.mpr (fun a ha => by simp [h a ha])
    unfold history_file_name sanitize_session_id
    rw [hfil]
    rfl

/-- C10 witness: two colliding identifiers and a fully-disallowed
identifier evaluated concretely. -/
theorem C10_witness :
    _get_history_path "/tmp/streamlit_history" "a!b"
      = _get_history_path "/tmp/streamlit_history" "a?b" ∧
    history_file_name "!?" = ".json" :=
  ⟨(C10_sanitize_collisions "/tmp/streamlit_history" "!?" (by decide)).1.1,
   (C10_sanitize_collisions "/tmp/streamlit_history" "!?" (by decide)).2⟩
